import Mathlib

/-!
Verification of the `mixed_ref` crate: two enums, `MixedRef` with variants
`Owned(Box<T>)` and `Borrowed(&T)`, and `MixedRefMut` with variants
`Owned(Box<T>)` and `Borrowed(&mut T)`, together with their conversions and
trait implementations.

Memory model: a heap is a total map from addresses (`Nat`) to values of the
element type. A `Box<T>` and a reference (shared or mutable) are both
addresses into the heap, so payload identity (same allocation, same referent)
is expressible as address equality, and mutation through a reference is a
store update at its address. Dereferencing (`Deref`, which in the source
returns a reference) yields the address; reading the heap at that address
yields the content.
-/

namespace MixedRefSpec

/-- A heap: total map from addresses to values of the element type. -/
def Store (α : Type) : Type := Nat → α

/-- Store update at one address. -/
def Store.write {α : Type} (σ : Store α) (p : Nat) (v : α) : Store α :=
  fun q => if q = p then v else σ q

/-- Model of `Box::new` (and of `String::into_boxed_str` and
`Vec::into_boxed_slice`, which hand the collection content over to a
fixed-capacity box): place the owned value at a chosen fresh address and
return the updated heap together with the box, which is that address. -/
def boxNew {α : Type} (σ : Store α) (v : α) (p : Nat) : Store α × Nat :=
  (σ.write p v, p)

/-- Source lines 50 to 56: `enum MixedRef` with variants `Owned(Box<T>)` and
`Borrowed(&'a T)`; the box and the reference are both heap addresses. -/
inductive MixedRef (α : Type) : Type where
  | Owned (ptr : Nat)
  | Borrowed (ptr : Nat)
deriving DecidableEq

/-- Source lines 63 to 69: `enum MixedRefMut` with variants `Owned(Box<T>)`
and `Borrowed(&'a mut T)`. -/
inductive MixedRefMut (α : Type) : Type where
  | Owned (ptr : Nat)
  | Borrowed (ptr : Nat)
deriving DecidableEq

/-- The variant tag of a `MixedRef`. -/
def MixedRef.isOwned {α : Type} : MixedRef α → Bool
  | .Owned _ => true
  | .Borrowed _ => false

/-- The variant tag of a `MixedRefMut`. -/
def MixedRefMut.isOwned {α : Type} : MixedRefMut α → Bool
  | .Owned _ => true
  | .Borrowed _ => false

/-- Source lines 152 to 161: `Deref for MixedRef` returns the reference to
the contained data, here its address, from either variant. -/
def MixedRef.deref {α : Type} : MixedRef α → Nat
  | .Owned b => b
  | .Borrowed r => r

/-- Source lines 163 to 172: `Deref for MixedRefMut`. -/
def MixedRefMut.deref {α : Type} : MixedRefMut α → Nat
  | .Owned b => b
  | .Borrowed r => r

/-- Source lines 174 to 181: `DerefMut for MixedRefMut` returns the mutable
reference to the contained data, here its address, from either variant. -/
def MixedRefMut.deref_mut {α : Type} : MixedRefMut α → Nat
  | .Owned b => b
  | .Borrowed r => r

/-- Reading the content a `MixedRef` dereferences to. -/
def MixedRef.get {α : Type} (m : MixedRef α) (σ : Store α) : α :=
  σ m.deref

/-- Reading the content a `MixedRefMut` dereferences to. -/
def MixedRefMut.get {α : Type} (m : MixedRefMut α) (σ : Store α) : α :=
  σ m.deref

/-- Source lines 183 to 185: `AsRef for MixedRef`, body `{ self }`, which
deref-coerces to the `Deref` result. -/
def MixedRef.as_ref {α : Type} (m : MixedRef α) : Nat :=
  m.deref

/-- Source lines 195 to 197: `Borrow for MixedRef`, body `{ self }`. -/
def MixedRef.borrow {α : Type} (m : MixedRef α) : Nat :=
  m.deref

/-- Source lines 187 to 189: `AsRef for MixedRefMut`, body `{ self }`. -/
def MixedRefMut.as_ref {α : Type} (m : MixedRefMut α) : Nat :=
  m.deref

/-- Source lines 199 to 201: `Borrow for MixedRefMut`, body `{ self }`. -/
def MixedRefMut.borrow {α : Type} (m : MixedRefMut α) : Nat :=
  m.deref

/-- Source lines 191 to 193: `AsMut for MixedRefMut`, body `{ self }`, which
deref-coerces to the `DerefMut` result. -/
def MixedRefMut.as_mut {α : Type} (m : MixedRefMut α) : Nat :=
  m.deref_mut

/-- Source lines 203 to 205: `BorrowMut for MixedRefMut`, body `{ self }`. -/
def MixedRefMut.borrow_mut {α : Type} (m : MixedRefMut α) : Nat :=
  m.deref_mut

/-- Source lines 71 to 75: `PartialEq<T> for MixedRef<U>` compares
`(self as &U) == other.as_ref()`, the element equality applied to the two
dereferenced contents, instantiated at `T = MixedRef<U>` whose `AsRef`
implementation is `MixedRef.as_ref`. `eqT` is the element equality. -/
def MixedRef.eq {α : Type} (eqT : α → α → Bool) (σ : Store α)
    (m other : MixedRef α) : Bool :=
  eqT (σ m.deref) (σ other.as_ref)

/-- Source lines 77 to 81: `PartialEq<T> for MixedRefMut<U>`, instantiated at
`T = MixedRefMut<U>`. -/
def MixedRefMut.eq {α : Type} (eqT : α → α → Bool) (σ : Store α)
    (m other : MixedRefMut α) : Bool :=
  eqT (σ m.deref) (σ other.as_ref)

/-- Source lines 95 to 99: `From<&T> for MixedRef` wraps the reference as is
in the `Borrowed` variant. -/
def MixedRef.fromRef {α : Type} (r : Nat) : MixedRef α :=
  .Borrowed r

/-- Source lines 101 to 105: `From<&mut T> for MixedRefMut`. -/
def MixedRefMut.fromMutRef {α : Type} (r : Nat) : MixedRefMut α :=
  .Borrowed r

/-- Source lines 107 to 111: `From<Box<T>> for MixedRef` wraps the box in the
`Owned` variant. -/
def MixedRef.fromBox {α : Type} (b : Nat) : MixedRef α :=
  .Owned b

/-- Source lines 113 to 117: `From<Box<T>> for MixedRefMut`. -/
def MixedRefMut.fromBox {α : Type} (b : Nat) : MixedRefMut α :=
  .Owned b

/-- Source lines 83 to 87: `Default for MixedRef` is
`MixedRef::Owned(Default::default())`, where the boxed default allocates a
box holding the element default `d`; `p` is the fresh address the box model
uses. -/
def MixedRef.default {α : Type} (σ : Store α) (d : α) (p : Nat) :
    Store α × MixedRef α :=
  let bn := boxNew σ d p
  (bn.1, MixedRef.fromBox bn.2)

/-- Source lines 89 to 93: `Default for MixedRefMut`. -/
def MixedRefMut.default {α : Type} (σ : Store α) (d : α) (p : Nat) :
    Store α × MixedRefMut α :=
  let bn := boxNew σ d p
  (bn.1, MixedRefMut.fromBox bn.2)

/-- Source lines 119 to 123: `From<String> for MixedRef<str>` is
`Self::from(s.into_boxed_str())`: box the string content, then wrap the box
via `From<Box<str>>`. -/
def MixedRef.fromString (σ : Store String) (s : String) (p : Nat) :
    Store String × MixedRef String :=
  let bn := boxNew σ s p
  (bn.1, MixedRef.fromBox bn.2)

/-- Source lines 125 to 129: `From<String> for MixedRefMut<str>`. -/
def MixedRefMut.fromString (σ : Store String) (s : String) (p : Nat) :
    Store String × MixedRefMut String :=
  let bn := boxNew σ s p
  (bn.1, MixedRefMut.fromBox bn.2)

/-- Source lines 131 to 135: `From<Vec<T>> for MixedRef<[T]>` is
`Self::from(v.into_boxed_slice())`: box the vector content, then wrap the
box via `From<Box<[T]>>`. -/
def MixedRef.fromVec {β : Type} (σ : Store (List β)) (v : List β) (p : Nat) :
    Store (List β) × MixedRef (List β) :=
  let bn := boxNew σ v p
  (bn.1, MixedRef.fromBox bn.2)

/-- Source lines 137 to 141: `From<Vec<T>> for MixedRefMut<[T]>`. -/
def MixedRefMut.fromVec {β : Type} (σ : Store (List β)) (v : List β) (p : Nat) :
    Store (List β) × MixedRefMut (List β) :=
  let bn := boxNew σ v p
  (bn.1, MixedRefMut.fromBox bn.2)

/-- Source lines 143 to 150: `From<MixedRefMut> for MixedRef` maps `Owned(b)`
to `Owned(b)` and `Borrowed(r)` to `Borrowed(r)`, moving the payload. -/
def MixedRef.fromMut {α : Type} : MixedRefMut α → MixedRef α
  | .Owned b => .Owned b
  | .Borrowed r => .Borrowed r

/-- Source lines 235 to 240: `MixedRefMut::downcast` is `self.into()`, the
`From<MixedRefMut> for MixedRef` conversion. -/
def MixedRefMut.downcast {α : Type} (m : MixedRefMut α) : MixedRef α :=
  MixedRef.fromMut m

/-- Mutation through `DerefMut` (source lines 174 to 181): writing `v`
through the mutable reference `deref_mut` returns updates the heap at that
address. -/
def MixedRefMut.writeThrough {α : Type} (m : MixedRefMut α) (σ : Store α)
    (v : α) : Store α :=
  σ.write m.deref_mut v

/-- Model of `std::borrow::Cow`: `Owned` holds a value of the owned form of
the element type (held inline, not boxed), `Borrowed` holds a reference. -/
inductive Cow (α : Type) : Type where
  | Owned (v : α)
  | Borrowed (ptr : Nat)
deriving DecidableEq

/-- The variant tag of a `Cow`. -/
def Cow.isOwned {α : Type} : Cow α → Bool
  | .Owned _ => true
  | .Borrowed _ => false

/-- The content a `Cow` presents. -/
def Cow.get {α : Type} (σ : Store α) : Cow α → α
  | .Owned v => v
  | .Borrowed r => σ r

/-- Source lines 207 to 216: `From<Cow<T>> for MixedRef<T>` maps
`Cow::Owned(b)` to `MixedRef::Owned(b.into())`, boxing the owned value at a
fresh address `p`, and `Cow::Borrowed(r)` to `MixedRef::Borrowed(r)`. -/
def MixedRef.fromCow {α : Type} (σ : Store α) (c : Cow α) (p : Nat) :
    Store α × MixedRef α :=
  match c with
  | .Owned v =>
    let bn := boxNew σ v p
    (bn.1, .Owned bn.2)
  | .Borrowed r => (σ, .Borrowed r)

/-- Source lines 218 to 227: `Into<Cow<T>> for MixedRef<T>` maps `Owned(b)`
to `Cow::Owned(b.into())`, reading the boxed content out of the heap, and
`Borrowed(r)` to `Cow::Borrowed(r)`. -/
def MixedRef.intoCow {α : Type} (m : MixedRef α) (σ : Store α) : Cow α :=
  match m with
  | .Owned b => .Owned (σ b)
  | .Borrowed r => .Borrowed r

/-- Source lines 50 and 63: `#[derive(Hash)]` on the enums hashes the variant
discriminant (0 for `Owned`, 1 for `Borrowed`) into the hasher, then hashes
the field; `Box<T>` and `&T` both delegate their `Hash` to the content, given
here by the element hash `hashT`, producing a stream of hasher inputs. -/
def MixedRef.hashStream {α : Type} (hashT : α → List Nat) (σ : Store α) :
    MixedRef α → List Nat
  | .Owned b => 0 :: hashT (σ b)
  | .Borrowed r => 1 :: hashT (σ r)

/-- Reading the heap back at the address just written yields the value. -/
theorem Store.write_self {α : Type} (σ : Store α) (p : Nat) (v : α) :
    σ.write p v p = v := by
  simp [Store.write]

end MixedRefSpec

namespace MixedRefSpec

/-- C1: for every `MixedRefMut` value `m`, `downcast m` (the
`From<MixedRefMut>` conversion into `MixedRef`) yields a `MixedRef` whose
dereferenced content equals the content of `m`, whose variant tag matches the
tag of `m`, and whose payload is identical: an `Owned` mutable becomes an
`Owned` read-only holding the same boxed allocation, a `Borrowed` mutable
becomes a `Borrowed` read-only to the same referent address. -/
theorem downcast_preserves_tag_and_content {α : Type} (σ : Store α)
    (m : MixedRefMut α) :
    m.downcast.get σ = m.get σ ∧
    m.downcast.isOwned = m.isOwned ∧
    m.downcast.deref = m.deref := by
  cases m <;>
    simp [MixedRefMut.downcast, MixedRef.fromMut, MixedRef.get,
      MixedRefMut.get, MixedRef.deref, MixedRefMut.deref, MixedRef.isOwned,
      MixedRefMut.isOwned]

/-- C2: equality of two `MixedRef` (or `MixedRefMut`) values holds iff their
dereferenced contents compare equal under the element equality, regardless of
which variant each side holds; in particular `Owned` at content "abc" equals
`Borrowed` at content "abc", and `Owned` "abc" differs from `Owned` "abd". -/
theorem eq_ignores_tag {α : Type} (eqT : α → α → Bool) (σ : Store α)
    (m₁ m₂ : MixedRef α) (n₁ n₂ : MixedRefMut α) :
    MixedRef.eq eqT σ m₁ m₂ = eqT (m₁.get σ) (m₂.get σ) ∧
    MixedRefMut.eq eqT σ n₁ n₂ = eqT (n₁.get σ) (n₂.get σ) ∧
    MixedRef.eq (fun a b => a == b)
      (fun q => if q = 0 then "abc" else "abd")
      (MixedRef.Owned 0) (MixedRef.Borrowed 0) = true ∧
    MixedRef.eq (fun a b => a == b)
      (fun q => if q = 0 then "abc" else "abd")
      (MixedRef.Owned 0) (MixedRef.Owned 1) = false := by
  refine ⟨rfl, rfl, by decide, by decide⟩

/-- C3: writing `v` through the `DerefMut` access of a `MixedRefMut` is
visible on every subsequent dereference of that value, and when the value is
`Borrowed r` the write lands at the original referent address `r`, so the
original owner reads `v` there after the borrow ends. -/
theorem writeThrough_visible {α : Type} (σ : Store α) (m : MixedRefMut α)
    (v : α) (r : Nat) :
    m.get (m.writeThrough σ v) = v ∧
    (MixedRefMut.Borrowed r : MixedRefMut α).writeThrough σ v r = v := by
  constructor
  · cases m <;>
      simp [MixedRefMut.get, MixedRefMut.writeThrough, MixedRefMut.deref,
        MixedRefMut.deref_mut, Store.write_self]
  · simp [MixedRefMut.writeThrough, MixedRefMut.deref_mut, Store.write_self]

/-- C4: boxing an owned value `v` and constructing a `MixedRef` (or
`MixedRefMut`) from the box via `From<Box<T>>`, then dereferencing, yields
`v`. -/
theorem fromBox_get {α : Type} (σ : Store α) (v : α) (p : Nat) :
    (MixedRef.fromBox (boxNew σ v p).2).get (boxNew σ v p).1 = v ∧
    (MixedRefMut.fromBox (boxNew σ v p).2).get (boxNew σ v p).1 = v := by
  constructor <;>
    simp [MixedRef.fromBox, MixedRefMut.fromBox, MixedRef.get,
      MixedRefMut.get, MixedRef.deref, MixedRefMut.deref, boxNew,
      Store.write_self]

/-- C5: constructing a `MixedRef` from a reference `r` via `From<&T>` yields
the `Borrowed` variant holding exactly the address `r`, so dereferencing
returns that same address and reading it yields the referent of `r` in the
heap, not a copy. -/
theorem fromRef_same_address {α : Type} (σ : Store α) (r : Nat) :
    (MixedRef.fromRef r : MixedRef α).deref = r ∧
    (MixedRef.fromRef r : MixedRef α).isOwned = false ∧
    (MixedRef.fromRef r : MixedRef α).get σ = σ r := by
  exact ⟨rfl, rfl, rfl⟩

/-- C6: `Default` for `MixedRef` and for `MixedRefMut` over an element with
default value `d` produces the `Owned` variant (never `Borrowed`) whose
dereferenced content equals `d`. -/
theorem default_owned {α : Type} (σ : Store α) (d : α) (p : Nat) :
    (MixedRef.default σ d p).2.isOwned = true ∧
    (MixedRef.default σ d p).2.get (MixedRef.default σ d p).1 = d ∧
    (MixedRefMut.default σ d p).2.isOwned = true ∧
    (MixedRefMut.default σ d p).2.get (MixedRefMut.default σ d p).1 = d := by
  refine ⟨rfl, ?_, rfl, ?_⟩ <;>
    simp [MixedRef.default, MixedRefMut.default, MixedRef.fromBox,
      MixedRefMut.fromBox, MixedRef.get, MixedRefMut.get, MixedRef.deref,
      MixedRefMut.deref, MixedRef.isOwned, MixedRefMut.isOwned, boxNew,
      Store.write_self]

/-- C7: constructing a `MixedRef` or `MixedRefMut` from an owned `String` or
`Vec` first boxes the collection content (into a boxed str or boxed slice)
and wraps the box as `Owned`, so the result is always the `Owned` variant and
its dereferenced content equals the original collection content. -/
theorem fromCollection_owned {β : Type} (σs : Store String) (s : String)
    (σv : Store (List β)) (v : List β) (p : Nat) :
    (MixedRef.fromString σs s p).2.isOwned = true ∧
    (MixedRef.fromString σs s p).2.get (MixedRef.fromString σs s p).1 = s ∧
    (MixedRefMut.fromString σs s p).2.isOwned = true ∧
    (MixedRefMut.fromString σs s p).2.get (MixedRefMut.fromString σs s p).1 = s ∧
    (MixedRef.fromVec σv v p).2.isOwned = true ∧
    (MixedRef.fromVec σv v p).2.get (MixedRef.fromVec σv v p).1 = v ∧
    (MixedRefMut.fromVec σv v p).2.isOwned = true ∧
    (MixedRefMut.fromVec σv v p).2.get (MixedRefMut.fromVec σv v p).1 = v := by
  refine ⟨rfl, ?_, rfl, ?_, rfl, ?_, rfl, ?_⟩ <;>
    simp [MixedRef.fromString, MixedRefMut.fromString, MixedRef.fromVec,
      MixedRefMut.fromVec, MixedRef.fromBox, MixedRefMut.fromBox,
      MixedRef.get, MixedRefMut.get, MixedRef.deref, MixedRefMut.deref,
      boxNew, Store.write_self]

/-- C8: `From<Cow>` into `MixedRef` preserves the variant tag and the
content (`Cow::Owned` maps to `MixedRef::Owned`, `Cow::Borrowed` to
`MixedRef::Borrowed` at the same referent), the reverse `Into<Cow>` likewise
preserves tag and content, and the round trip from a `Cow` through `MixedRef`
back to a `Cow` yields the same tag and equal content. -/
theorem cow_roundtrip {α : Type} (σ : Store α) (c : Cow α) (m : MixedRef α)
    (p : Nat) :
    (MixedRef.fromCow σ c p).2.isOwned = c.isOwned ∧
    (MixedRef.fromCow σ c p).2.get (MixedRef.fromCow σ c p).1 = c.get σ ∧
    (m.intoCow σ).isOwned = m.isOwned ∧
    (m.intoCow σ).get σ = m.get σ ∧
    ((MixedRef.fromCow σ c p).2.intoCow (MixedRef.fromCow σ c p).1).isOwned
      = c.isOwned ∧
    ((MixedRef.fromCow σ c p).2.intoCow (MixedRef.fromCow σ c p).1).get
      (MixedRef.fromCow σ c p).1 = c.get σ := by
  cases c <;> cases m <;>
    simp [MixedRef.fromCow, MixedRef.intoCow, MixedRef.get, MixedRef.deref,
      MixedRef.isOwned, Cow.isOwned, Cow.get, boxNew, Store.write_self]

/-- C9: every read-only access path of `MixedRef` (`as_ref`, `borrow`) and of
`MixedRefMut` (`as_ref`, `borrow`) returns the same reference as `Deref`, and
every mutable access path of `MixedRefMut` (`as_mut`, `borrow_mut`) returns
the same reference as `DerefMut`. -/
theorem access_paths_agree {α : Type} (m : MixedRef α) (n : MixedRefMut α) :
    m.as_ref = m.deref ∧ m.borrow = m.deref ∧
    n.as_ref = n.deref ∧ n.borrow = n.deref ∧
    n.as_mut = n.deref_mut ∧ n.borrow_mut = n.deref_mut := by
  exact ⟨rfl, rfl, rfl, rfl, rfl, rfl⟩

/-- C10: there exist two `MixedRef` values that the equality operation deems
equal but whose derived hash streams differ, because the derived `Hash` feeds
the variant discriminant into the hasher while equality ignores the tag: an
`Owned` and a `Borrowed` of equal content are equal yet hash differently. -/
theorem eq_hash_inconsistent :
    ∃ (m₁ m₂ : MixedRef Nat),
      MixedRef.eq (fun a b => a == b) (fun q => q % 2 + 5) m₁ m₂ = true ∧
      MixedRef.hashStream (fun v => [v]) (fun q => q % 2 + 5) m₁ ≠
        MixedRef.hashStream (fun v => [v]) (fun q => q % 2 + 5) m₂ := by
  refine ⟨MixedRef.Owned 0, MixedRef.Borrowed 2, by decide, by decide⟩

end MixedRefSpec
